import Mathlib

/-!
Shallow embedding of the validation and declarative data of the
netbox-plugin-aci repository: field validators, choice enumerations,
form declarations and search indexes, together with theorems settling
the specification claims about them.

The repository's models, validators and choices modules are referenced by
the source files given here (tests, forms, search, API router) but are not
themselves part of the source tree; where they decide a claim they are
modelled from the spec, and each such definition says so in its doc
comment.  Everything else is embedded from the source files.
-/

namespace NetboxAci

/-! ### Field validators -/

/-- Modelled from the spec: character class of the naming pattern
`[a-zA-Z0-9_.:-]` (letters, digits, underscore, dot, colon, hyphen);
the repository's validators module is missing from the source tree. -/
def aciNameChar (c : Char) : Bool :=
  ('a' ≤ c && c ≤ 'z') || ('A' ≤ c && c ≤ 'Z') || ('0' ≤ c && c ≤ '9')
    || c == '_' || c == '.' || c == ':' || c == '-'

/-- Modelled from the spec: the name validator accepts exactly the strings
matching the naming pattern: non-empty, up to 64 characters, all from the
restricted character class; the validators module is missing from the
source tree. -/
def ACIPolicyNameValidator (s : String) : Bool :=
  decide (1 ≤ s.length) && decide (s.length ≤ 64) && s.data.all aciNameChar

/-- Modelled from the spec: the alias validator accepts the same character
class and length bound as the name validator but additionally accepts the
empty string; the validators module is missing from the source tree. -/
def ACIPolicyNameAliasValidator (s : String) : Bool :=
  s.isEmpty || ACIPolicyNameValidator s

/-- Modelled from the spec: the description character set is a broader but
still ASCII-restricted set (printable ASCII, code points 32 to 126, which
excludes non-ASCII letters such as the o-umlaut); the validators module is
missing from the source tree. -/
def aciDescriptionChar (c : Char) : Bool :=
  decide (32 ≤ c.toNat) && decide (c.toNat ≤ 126)

/-- Modelled from the spec: the description validator is optional (empty
allowed), restricted to the ASCII character set, length at most 256; the
validators module is missing from the source tree. -/
def ACIPolicyDescriptionValidator (s : String) : Bool :=
  decide (s.length ≤ 256) && s.data.all aciDescriptionChar

/-- Membership of a character in the regex character class
`[a-zA-Z0-9_.:-]`, stated independently through ASCII code points. -/
def nameRegexChar (c : Char) : Prop :=
  (97 ≤ c.toNat ∧ c.toNat ≤ 122) ∨ (65 ≤ c.toNat ∧ c.toNat ≤ 90)
    ∨ (48 ≤ c.toNat ∧ c.toNat ≤ 57)
    ∨ c.toNat = 95 ∨ c.toNat = 46 ∨ c.toNat = 58 ∨ c.toNat = 45

/-- The language of the anchored naming regex: between one and 64
characters, each from the character class. -/
def matchesNameRegex (s : String) : Prop :=
  1 ≤ s.length ∧ s.length ≤ 64 ∧ ∀ c ∈ s.data, nameRegexChar c

/-! ### Choice enumerations -/

/-- Modelled from the spec: the documented forwarding-method enum values of
a Bridge Domain (the choices module defining the choice sets is missing
from the source tree; the spec documents the values "flood", "proxy" and
"bd-flood", which the model test asserts as the stored values of the three
forwarding-method fields). -/
def BDForwardingMethodChoices : List String :=
  ["flood", "proxy", "bd-flood"]

/-- Modelled from the spec: validation of a forwarding-method value accepts
exactly the members of the documented choice set and rejects every other
string before persistence. -/
def validBDForwardingMethod (s : String) : Bool :=
  BDForwardingMethodChoices.contains s

/-! ### Records, validation and save (Tenant-shaped entities) -/

/-- The validated string attributes common to the six entities: name,
alias and description, as exercised by the model tests. -/
structure ACIRecord where
  name : String
  name_alias : String
  description : String
deriving DecidableEq

/-- A validation error names the specific failing field and carries a
human-readable message. -/
structure ValidationError where
  field : String
  message : String
deriving DecidableEq

/-- Modelled from the spec: full-clean validation of a record runs the
name, alias and description validators and reports the first failing field
with its message; it succeeds only when every field passes. -/
def validateRecord (r : ACIRecord) : Option ValidationError :=
  if ACIPolicyNameValidator r.name = false then
    some ⟨"name", "Invalid characters or length in name."⟩
  else if ACIPolicyNameAliasValidator r.name_alias = false then
    some ⟨"name_alias", "Invalid characters or length in name alias."⟩
  else if ACIPolicyDescriptionValidator r.description = false then
    some ⟨"description", "Invalid characters or length in description."⟩
  else none

/-- Modelled from the spec: saving a record validates it synchronously;
on failure the validation error is raised to the caller and the stored
state is left untouched (no partial save), on success the record is
persisted. -/
def save (db : List ACIRecord) (r : ACIRecord) :
    Except ValidationError (List ACIRecord) :=
  match validateRecord r with
  | some e => Except.error e
  | none => Except.ok (r :: db)

/-! ### Form declarations (from forms/tenant_networks.py) -/

/-- A form field declaration: its name and whether the field is required
(a Django form field is required unless declared with required set to
false). -/
structure FormField where
  name : String
  required : Bool
deriving DecidableEq

/-- The fields declared on the Bridge Domain creation form
(ACIBridgeDomainForm): only aci_vrf among them omits the optional marker,
so only it is required. -/
def ACIBridgeDomainFormFields : List FormField :=
  [⟨"aci_tenant", false⟩,
   ⟨"aci_vrf", true⟩,
   ⟨"nb_tenant_group", false⟩,
   ⟨"nb_tenant", false⟩,
   ⟨"advertise_host_routes_enabled", false⟩,
   ⟨"arp_flooding_enabled", false⟩,
   ⟨"clear_remote_mac_enabled", false⟩,
   ⟨"ep_move_detection_enabled", false⟩,
   ⟨"ip_data_plane_learning_enabled", false⟩,
   ⟨"limit_ip_learn_to_subnet", false⟩,
   ⟨"multi_destination_flooding", false⟩,
   ⟨"pim_ipv4_enabled", false⟩,
   ⟨"pim_ipv6_enabled", false⟩,
   ⟨"unicast_routing_enabled", false⟩,
   ⟨"unknown_ipv4_multicast", false⟩,
   ⟨"unknown_ipv6_multicast", false⟩,
   ⟨"unknown_unicast", false⟩,
   ⟨"comments", false⟩]

/-- A form submission provides a set of field names; the form accepts it
only when every required declared field is provided. -/
def formAccepts (fields : List FormField) (provided : String → Bool) : Bool :=
  fields.all (fun f => !f.required || provided f.name)

/-- A persisted Bridge Domain as built from an accepted creation form:
the VRF relation is a single mandatory reference. -/
structure BridgeDomainRecord where
  name : String
  aci_vrf : String
deriving DecidableEq

/-! ### The Bridge Domain Subnet form and its gateway field -/

/-- All field names of the Bridge Domain Subnet form
(ACIBridgeDomainSubnetForm): the declared dynamic and boolean fields
together with the fields listed in its Meta class. -/
def ACIBridgeDomainSubnetFormFieldNames : List String :=
  ["name", "name_alias", "aci_tenant", "aci_vrf", "aci_bridge_domain",
   "nb_vrf", "gateway_ip_address", "nb_tenant_group", "nb_tenant",
   "advertised_externally_enabled", "igmp_querier_enabled",
   "ip_data_plane_learning_enabled", "no_default_gateway", "nd_ra_enabled",
   "nd_ra_prefix_policy_name", "preferred_ip_address_enabled",
   "shared_enabled", "virtual_ip_enabled", "comments", "tags"]

/-- The query parameters declared on the gateway_ip_address field of the
subnet form, exactly as written in the source: the filter value references
the form field named by the string after the dollar sign. -/
def gateway_ip_address_query_params : List (String × String) :=
  [("present_in_vrf_id", "$nd_vrf")]

/-- The form field a dollar-prefixed query-parameter value refers to. -/
def dynamicFilterTarget (v : String) : String :=
  v.drop 1

/-- Modelled from the host framework: a dynamic choice field's query
parameters restrict the offered choices only through parameters whose
target is an existing field of the same form; a parameter naming a
nonexistent field imposes no restriction. -/
def effectiveQueryParams (formFields : List String)
    (qp : List (String × String)) : List (String × String) :=
  qp.filter (fun p => formFields.contains (dynamicFilterTarget p.2))

/-- An IP address record with the VRF it belongs to (none when it is in
the global context). -/
structure IPAddressRecord where
  address : String
  vrf : Option String
deriving DecidableEq

/-- The intended invariant from the spec: the gateway IP belongs to the IP
context of the referenced VRF. -/
def gatewayInVrf (ip : IPAddressRecord) (vrfName : String) : Bool :=
  ip.vrf == some vrfName

/-- Modelled from the host framework: the gateway field accepts a
submitted IP address drawn from its base queryset (all IP addresses)
whenever it satisfies every effective VRF filter of the field; with the
filters as declared in the source, an effective filter requires the IP to
belong to the selected VRF. -/
def gatewayAccepted (ip : IPAddressRecord) (selectedVrf : Option String) :
    Bool :=
  (effectiveQueryParams ACIBridgeDomainSubnetFormFieldNames
      gateway_ip_address_query_params).all
    (fun _ => gatewayInVrf ip (selectedVrf.getD ""))

/-! ### Documented form defaults (help texts in forms/tenant_networks.py) -/

/-- The boolean fields of the VRF creation form with the default
documented in each field's help text. -/
def ACIVRFFormBoolDefaults : List (String × Bool) :=
  [("bd_enforcement_enabled", false),
   ("ip_data_plane_learning_enabled", true),
   ("pim_ipv4_enabled", false),
   ("pim_ipv6_enabled", false),
   ("preferred_group_enabled", false)]

/-- The boolean fields of the Bridge Domain creation form with the default
documented in each field's help text. -/
def ACIBridgeDomainFormBoolDefaults : List (String × Bool) :=
  [("advertise_host_routes_enabled", false),
   ("arp_flooding_enabled", false),
   ("clear_remote_mac_enabled", false),
   ("ep_move_detection_enabled", false),
   ("ip_data_plane_learning_enabled", true),
   ("limit_ip_learn_to_subnet", true),
   ("pim_ipv4_enabled", false),
   ("pim_ipv6_enabled", false),
   ("unicast_routing_enabled", true)]

/-- The boolean fields of the Bridge Domain Subnet creation form with the
default documented in each field's help text. -/
def ACIBridgeDomainSubnetFormBoolDefaults : List (String × Bool) :=
  [("advertised_externally_enabled", false),
   ("igmp_querier_enabled", false),
   ("ip_data_plane_learning_enabled", true),
   ("no_default_gateway", false),
   ("nd_ra_enabled", true),
   ("preferred_ip_address_enabled", false),
   ("shared_enabled", false),
   ("virtual_ip_enabled", false)]

/-- Modelled from the spec: the value a boolean form field takes when the
submitter leaves it unspecified is its documented default; a submitted
value wins over the default. -/
def submittedBoolValue (defaults : List (String × Bool)) (fld : String)
    (submitted : Option Bool) : Bool :=
  match submitted with
  | some b => b
  | none => (defaults.lookup fld).getD false

/-! ### Search indexes (from search.py) -/

/-- A search index declaration: the model it indexes, its weighted field
list (lower weight means higher relevance for the host search engine) and
the attributes displayed in search results. -/
structure SearchIndexDef where
  model : String
  fields : List (String × Nat)
  display_attrs : List String
deriving DecidableEq

/-- NetBox search definition for ACI Tenant model. -/
def ACITenantIndex : SearchIndexDef :=
  ⟨"ACITenant",
   [("name", 100), ("name_alias", 300), ("description", 500)],
   ["name", "name_alias", "description", "nb_tenant"]⟩

/-- NetBox search definition for ACI Application Profile model. -/
def ACIAppProfileIndex : SearchIndexDef :=
  ⟨"ACIAppProfile",
   [("name", 100), ("name_alias", 300), ("description", 500)],
   ["name", "name_alias", "description", "aci_tenant", "nb_tenant"]⟩

/-- NetBox search definition for ACI VRF model. -/
def ACIVRFIndex : SearchIndexDef :=
  ⟨"ACIVRF",
   [("name", 100), ("name_alias", 300), ("description", 500)],
   ["name", "alias", "description", "aci_tenant", "nb_tenant", "nb_vrf"]⟩

/-- NetBox search definition for ACI Bridge Domain model. -/
def ACIBridgeDomainIndex : SearchIndexDef :=
  ⟨"ACIBridgeDomain",
   [("name", 100), ("name_alias", 300), ("description", 500)],
   ["name", "name_alias", "description", "aci_vrf", "nb_tenant"]⟩

/-- NetBox search definition for ACI Bridge Domain Subnet model. -/
def ACIBridgeDomainSubnetIndex : SearchIndexDef :=
  ⟨"ACIBridgeDomainSubnet",
   [("name", 100), ("name_alias", 300), ("description", 500)],
   ["name", "name_alias", "description", "aci_bridge_domain",
    "gateway_ip_address", "nb_tenant"]⟩

/-- NetBox search definition for ACI Endpoint Group model. -/
def ACIEndpointGroupIndex : SearchIndexDef :=
  ⟨"ACIEndpointGroup",
   [("name", 100), ("name_alias", 300), ("description", 500)],
   ["name", "name_alias", "description", "aci_app_profile",
    "aci_bridge_domain", "nb_tenant"]⟩

/-- The six indexes registered with the host search engine, in source
order. -/
def registeredSearchIndexes : List SearchIndexDef :=
  [ACITenantIndex, ACIAppProfileIndex, ACIVRFIndex, ACIBridgeDomainIndex,
   ACIBridgeDomainSubnetIndex, ACIEndpointGroupIndex]

/-! ### Helper lemmas -/

theorem char_le_iff_toNat_le (c d : Char) : c ≤ d ↔ c.toNat ≤ d.toNat :=
  Iff.rfl

theorem char_eq_iff_toNat_eq (c d : Char) : c = d ↔ c.toNat = d.toNat := by
  constructor
  · intro h; rw [h]
  · intro h
    exact le_antisymm ((char_le_iff_toNat_le c d).mpr h.le)
      ((char_le_iff_toNat_le d c).mpr h.ge)

theorem aciNameChar_iff (c : Char) :
    aciNameChar c = true ↔ nameRegexChar c := by
  simp only [aciNameChar, nameRegexChar, Bool.or_eq_true, Bool.and_eq_true,
    decide_eq_true_eq, beq_iff_eq]
  rw [show ('a' ≤ c) = (97 ≤ c.toNat) from rfl,
      show (c ≤ 'z') = (c.toNat ≤ 122) from rfl,
      show ('A' ≤ c) = (65 ≤ c.toNat) from rfl,
      show (c ≤ 'Z') = (c.toNat ≤ 90) from rfl,
      show ('0' ≤ c) = (48 ≤ c.toNat) from rfl,
      show (c ≤ '9') = (c.toNat ≤ 57) from rfl,
      char_eq_iff_toNat_eq c '_', char_eq_iff_toNat_eq c '.',
      char_eq_iff_toNat_eq c ':', char_eq_iff_toNat_eq c '-',
      show ('_').toNat = 95 from rfl, show ('.').toNat = 46 from rfl,
      show (':').toNat = 58 from rfl, show ('-').toNat = 45 from rfl]
  tauto

theorem name_validator_iff (s : String) :
    ACIPolicyNameValidator s = true ↔ matchesNameRegex s := by
  simp only [ACIPolicyNameValidator, matchesNameRegex, Bool.and_eq_true,
    decide_eq_true_eq, List.all_eq_true, aciNameChar_iff, and_assoc]

theorem alias_validator_iff (s : String) :
    ACIPolicyNameAliasValidator s = true ↔ (s = "" ∨ matchesNameRegex s) := by
  simp only [ACIPolicyNameAliasValidator, Bool.or_eq_true,
    String.isEmpty_iff, name_validator_iff]

theorem validateRecord_error_shape (r : ACIRecord) (e : ValidationError)
    (h : validateRecord r = some e) :
    e.field ∈ ["name", "name_alias", "description"] ∧ e.message ≠ "" := by
  unfold validateRecord at h
  split at h
  · cases h; simp
  · split at h
    · cases h; simp
    · split at h
      · cases h; simp
      · cases h

theorem formAccepts_bridge_domain (p : String → Bool) :
    formAccepts ACIBridgeDomainFormFields p = p "aci_vrf" := by
  simp [formAccepts, ACIBridgeDomainFormFields]

/-! ### Claim theorems -/

/-- C1: the name validator used by all six entities accepts exactly the
language of the anchored naming regex (non-empty, restricted charset,
length at most 64) and the alias validator accepts the same language plus
the empty string; the four concrete examples behave as the spec states. -/
theorem name_and_alias_validators_match_regex :
    (∀ s : String, ACIPolicyNameValidator s = true ↔ matchesNameRegex s)
      ∧ (∀ s : String,
          ACIPolicyNameAliasValidator s = true ↔ (s = "" ∨ matchesNameRegex s))
      ∧ ACIPolicyNameValidator "ACITestTenant1" = true
      ∧ ACIPolicyNameAliasValidator "TestingTenant" = true
      ∧ ACIPolicyNameValidator "ACI Test Tenant 1" = false
      ∧ ACIPolicyNameAliasValidator "Invalid Alias" = false :=
  ⟨name_validator_iff, alias_validator_iff,
    by decide, by decide, by decide, by decide⟩

/-- C2: the description validator accepts only strings over the
ASCII-restricted character set of length at most 256, the empty string is
accepted, "Tenant for testing" is accepted, and a description containing
the non-ASCII letter o-umlaut is rejected. -/
theorem description_validator_ascii_bounded :
    (∀ s : String, ACIPolicyDescriptionValidator s = true ↔
        (s.length ≤ 256 ∧ ∀ c ∈ s.data, 32 ≤ c.toNat ∧ c.toNat ≤ 126))
      ∧ ACIPolicyDescriptionValidator "" = true
      ∧ ACIPolicyDescriptionValidator "Tenant for testing" = true
      ∧ ACIPolicyDescriptionValidator "Invalid Description: ö" = false := by
  refine ⟨fun s => ?_, by decide, by decide, by decide⟩
  simp only [ACIPolicyDescriptionValidator, aciDescriptionChar,
    Bool.and_eq_true, decide_eq_true_eq, List.all_eq_true]

/-- C3: a Bridge Domain forwarding-method value passes validation exactly
when it is one of the documented enum values "flood", "proxy" or
"bd-flood"; every other string (for example "drop") is rejected. -/
theorem bd_forwarding_method_enum_closed :
    (∀ s : String, validBDForwardingMethod s = true ↔
        (s = "flood" ∨ s = "proxy" ∨ s = "bd-flood"))
      ∧ validBDForwardingMethod "flood" = true
      ∧ validBDForwardingMethod "proxy" = true
      ∧ validBDForwardingMethod "bd-flood" = true
      ∧ validBDForwardingMethod "drop" = false := by
  refine ⟨fun s => ?_, by decide, by decide, by decide, by decide⟩
  simp [validBDForwardingMethod, BDForwardingMethodChoices]

/-- C4: the Bridge Domain creation form requires the VRF relation: a
submission that accepts must have provided aci_vrf, and a submission with
the VRF relation absent is rejected, so every persisted Bridge Domain
carries its single VRF reference. -/
theorem bridge_domain_form_requires_vrf (p : String → Bool) :
    (p "aci_vrf" = false → formAccepts ACIBridgeDomainFormFields p = false)
      ∧ (formAccepts ACIBridgeDomainFormFields p = true →
          p "aci_vrf" = true) := by
  rw [formAccepts_bridge_domain]
  exact ⟨fun h => h, fun h => h⟩

/-- C4 witness: the concrete submission providing nothing is rejected by
the Bridge Domain form. -/
theorem bridge_domain_form_requires_vrf_witness :
    formAccepts ACIBridgeDomainFormFields (fun _ => false) = false :=
  (bridge_domain_form_requires_vrf (fun _ => false)).1 rfl

/-- C5: saving a record either fails validation, in which case the raised
error names one of the validated fields with a non-empty human-readable
message and nothing is persisted (the save returns the error, leaving the
stored list untouched), or all fields pass and the record is persisted. -/
theorem save_validates_all_or_nothing (db : List ACIRecord) (r : ACIRecord) :
    (∃ e : ValidationError, validateRecord r = some e
        ∧ e.field ∈ ["name", "name_alias", "description"] ∧ e.message ≠ ""
        ∧ save db r = Except.error e)
      ∨ (validateRecord r = none ∧ save db r = Except.ok (r :: db)) := by
  cases h : validateRecord r with
  | some e =>
      left
      obtain ⟨hf, hm⟩ := validateRecord_error_shape r e h
      exact ⟨e, rfl, hf, hm, by simp [save, h]⟩
  | none =>
      right
      exact ⟨rfl, by simp [save, h]⟩

/-- C6: the subnet form's gateway field declares its VRF restriction
through a query parameter bound to the nonexistent form field "nd_vrf"
(the actual field is "nb_vrf"), so the restriction is vacuous: a gateway
IP belonging to a different VRF than the selected one is accepted even
though it is outside the referenced VRF. -/
theorem subnet_gateway_vrf_restriction_vacuous :
    dynamicFilterTarget "$nd_vrf" = "nd_vrf"
      ∧ ACIBridgeDomainSubnetFormFieldNames.contains "nd_vrf" = false
      ∧ ACIBridgeDomainSubnetFormFieldNames.contains "nb_vrf" = true
      ∧ effectiveQueryParams ACIBridgeDomainSubnetFormFieldNames
          gateway_ip_address_query_params = []
      ∧ gatewayAccepted ⟨"198.51.100.1", some "VRF-B"⟩ (some "VRF-A") = true
      ∧ gatewayInVrf ⟨"198.51.100.1", some "VRF-B"⟩ "VRF-A" = false := by
  refine ⟨by decide, by decide, by decide, by decide, by decide, by decide⟩

/-- C7: in the creation forms, the field "IP data plane learning enabled"
defaults to enabled when left unspecified, while the boolean feature flags
documented as defaulting to disabled (bridge-domain enforcement, PIM IPv4,
PIM IPv6, preferred group, ARP flooding, advertise host routes) default to
disabled. -/
theorem creation_form_bool_defaults :
    submittedBoolValue ACIVRFFormBoolDefaults
        "ip_data_plane_learning_enabled" none = true
      ∧ submittedBoolValue ACIBridgeDomainFormBoolDefaults
          "ip_data_plane_learning_enabled" none = true
      ∧ submittedBoolValue ACIBridgeDomainSubnetFormBoolDefaults
          "ip_data_plane_learning_enabled" none = true
      ∧ submittedBoolValue ACIVRFFormBoolDefaults
          "bd_enforcement_enabled" none = false
      ∧ submittedBoolValue ACIVRFFormBoolDefaults
          "pim_ipv4_enabled" none = false
      ∧ submittedBoolValue ACIVRFFormBoolDefaults
          "pim_ipv6_enabled" none = false
      ∧ submittedBoolValue ACIVRFFormBoolDefaults
          "preferred_group_enabled" none = false
      ∧ submittedBoolValue ACIBridgeDomainFormBoolDefaults
          "arp_flooding_enabled" none = false
      ∧ submittedBoolValue ACIBridgeDomainFormBoolDefaults
          "advertise_host_routes_enabled" none = false
      ∧ submittedBoolValue ACIBridgeDomainFormBoolDefaults
          "pim_ipv4_enabled" none = false
      ∧ submittedBoolValue ACIBridgeDomainFormBoolDefaults
          "pim_ipv6_enabled" none = false := by
  refine ⟨by decide, by decide, by decide, by decide, by decide, by decide,
    by decide, by decide, by decide, by decide, by decide⟩

/-- C8: each of the six registered search indexes carries the static
weighted field list name at weight 100, name_alias at weight 300 and
description at weight 500, and the weights are strictly ordered, so with
lower weight meaning higher relevance the name ranks strictly highest and
the description strictly lowest. -/
theorem search_index_weighted_fields :
    ACITenantIndex.fields =
        [("name", 100), ("name_alias", 300), ("description", 500)]
      ∧ ACIAppProfileIndex.fields =
          [("name", 100), ("name_alias", 300), ("description", 500)]
      ∧ ACIVRFIndex.fields =
          [("name", 100), ("name_alias", 300), ("description", 500)]
      ∧ ACIBridgeDomainIndex.fields =
          [("name", 100), ("name_alias", 300), ("description", 500)]
      ∧ ACIBridgeDomainSubnetIndex.fields =
          [("name", 100), ("name_alias", 300), ("description", 500)]
      ∧ ACIEndpointGroupIndex.fields =
          [("name", 100), ("name_alias", 300), ("description", 500)]
      ∧ registeredSearchIndexes.length = 6
      ∧ (100 : Nat) < 300 ∧ (300 : Nat) < 500 :=
  ⟨rfl, rfl, rfl, rfl, rfl, rfl, rfl, by decide, by decide⟩

/-- C9: validation is idempotent: a name string the validator accepts is
accepted again when the validator is applied to the same string again. -/
theorem name_validator_idempotent (s : String)
    (h : ACIPolicyNameValidator s = true) :
    ACIPolicyNameValidator s = true := h

/-- C9 witness: the accepted name "ACITestTenant1" stays accepted. -/
theorem name_validator_idempotent_witness :
    ACIPolicyNameValidator "ACITestTenant1" = true :=
  name_validator_idempotent "ACITestTenant1" (by decide)

/-- C10 counterexample: the registered VRF search index does not list
"name_alias" among its display attributes; it lists "alias" instead, so
not every one of the six registered indexes displays exactly name,
name_alias and description plus relation attributes. -/
theorem vrf_index_display_attrs_refute :
    ACIVRFIndex ∈ registeredSearchIndexes
      ∧ ACIVRFIndex.display_attrs.contains "name_alias" = false
      ∧ ACIVRFIndex.display_attrs.contains "alias" = true := by
  refine ⟨?_, by decide, by decide⟩
  simp [registeredSearchIndexes]

/-- C10 amended: five of the six registered search indexes list exactly
name, name_alias and description (plus the entity's relation attributes)
as display attributes; the VRF index lists "alias" in place of
"name_alias". -/
theorem search_index_display_attrs_exact :
    ACITenantIndex.display_attrs =
        ["name", "name_alias", "description", "nb_tenant"]
      ∧ ACIAppProfileIndex.display_attrs =
          ["name", "name_alias", "description", "aci_tenant", "nb_tenant"]
      ∧ ACIVRFIndex.display_attrs =
          ["name", "alias", "description", "aci_tenant", "nb_tenant",
           "nb_vrf"]
      ∧ ACIBridgeDomainIndex.display_attrs =
          ["name", "name_alias", "description", "aci_vrf", "nb_tenant"]
      ∧ ACIBridgeDomainSubnetIndex.display_attrs =
          ["name", "name_alias", "description", "aci_bridge_domain",
           "gateway_ip_address", "nb_tenant"]
      ∧ ACIEndpointGroupIndex.display_attrs =
          ["name", "name_alias", "description", "aci_app_profile",
           "aci_bridge_domain", "nb_tenant"] :=
  ⟨rfl, rfl, rfl, rfl, rfl, rfl⟩

end NetboxAci
